import Mathlib

/-!
A shallow embedding of `src/online_llm.py`: a thin wrapper around a hosted
generative-model API.  The module defines one class `GeminiAPI` (a client
handle bound to a model name), two generation calls on it (`generate_response`
for a complete response, `generate_stream` for a streaming response), a
standalone `list_available_models`, and two module-level convenience
functions (`get_gemini_response`, `get_gemini_stream`).

Modelling choices, all read off the source:
* The environment is an `Option String`: the value of `GEMINI_API_KEY`
  (`none` when unset).  Python's `if not api_key` treats both `None` and
  the empty string as falsy; `pyTruthy` captures that test.
* Python exceptions are the inductive `PyExc`.  The module raises exactly
  two kinds: `ValueError` (the spec's `ConfigurationError`) for a missing
  key, and a bare `Exception` (the spec's `GenerationError`) for wrapped
  provider failures.  `str(e)` is `PyExc.message`.
* The provider library (`google.generativeai`) is an opaque collaborator;
  its behaviour on each call is a parameter (`ProviderComplete`,
  `ProviderStream`, or an `Except` outcome for `list_models`).
* `generate_stream` is a Python generator function: invoking it runs none
  of its body and returns a suspended generator object (`GenIter`); the
  body first executes when the caller advances the iterator
  (`firstAdvance`), and the full consumption trace is `streamTrace`.
-/

/-- A Python exception value, restricted to the two kinds this module
raises: `valueError` models `ValueError` (the configuration-error kind of
the spec) and `exception` models a bare `Exception` (the generation-error
kind).  The payload is the exception message. -/
inductive PyExc where
  | valueError (message : String)
  | exception (message : String)
deriving DecidableEq

/-- Python's `str(e)` for the exceptions modelled here: both
`ValueError(m)` and `Exception(m)` render as just `m`. -/
def PyExc.message : PyExc → String
  | .valueError m => m
  | .exception m => m

/-- True exactly for the configuration-error kind (`ValueError`). -/
def PyExc.isConfigurationError : PyExc → Bool
  | .valueError _ => true
  | .exception _ => false

/-- Keyword arguments (`**kwargs`): an open-ended option map passed through
verbatim to the provider, modelled as an association list. -/
abbrev Kwargs := List (String × String)

/-- The truthiness test Python applies in `if not api_key`:
`os.getenv` yields `None` (unset) or the string value; `None` and the
empty string are falsy. -/
def pyTruthy : Option String → Bool
  | none => false
  | some s => !s.isEmpty

/-- `genai.GenerativeModel(model_name)`: an opaque client handle bound to
one model name for its entire lifetime. -/
structure GenerativeModel where
  name : String
deriving DecidableEq

/-- The wrapper instance: it holds the provider client handle
(`self.model`). -/
structure GeminiAPI where
  model : GenerativeModel
deriving DecidableEq

/-- `GeminiAPI.__init__` (src/online_llm.py lines 10–22): read
`GEMINI_API_KEY` from the environment; if it is unset or empty, raise
`ValueError("GEMINI_API_KEY not found in environment variables")` before
any provider client is constructed (the error result carries no
`GeminiAPI`, so no client handle exists); otherwise configure the
provider with the key and bind a `GenerativeModel` to `model_name`.  No
network call occurs here. -/
def GeminiAPI.init (env : Option String) (model_name : String) :
    Except PyExc GeminiAPI :=
  if pyTruthy env then
    Except.ok { model := { name := model_name } }
  else
    Except.error (.valueError "GEMINI_API_KEY not found in environment variables")

/-- The default model name literal written at line 10 of the source, in
the signature of `GeminiAPI.__init__`. -/
def init_default_model : String := "gemini-1.5-flash"

/-- `GeminiAPI(model_name=default)`: construction with the model name
omitted, which Python fills with the line-10 default. -/
def GeminiAPI.init_defaulted (env : Option String) : Except PyExc GeminiAPI :=
  GeminiAPI.init env init_default_model

/-- One chunk of a streaming response; `text` is the fragment
(`chunk.text`), possibly empty. -/
structure Chunk where
  text : String
deriving DecidableEq

/-- The provider's non-streaming behaviour,
`self.model.generate_content(prompt, **kwargs)` followed by reading
`response.text`: given the bound model, the prompt and the options,
either the full response text or a raised failure with its message. -/
abbrev ProviderComplete := GenerativeModel → String → Kwargs → Except String String

/-- The provider's streaming behaviour,
`self.model.generate_content(prompt, stream=True, **kwargs)` plus the
iteration over the response: `Except.error e` raises `e` at request
start; `Except.ok (chunks, merr)` delivers `chunks` in order and then
either ends the stream (`merr = none`) or raises mid-stream
(`merr = some e`). -/
abbrev ProviderStream :=
  GenerativeModel → String → Kwargs → Except String (List Chunk × Option String)

/-- A record of one provider generation call: the bound model handle, the
prompt and the options passed through verbatim. -/
abbrev ProviderCall := GenerativeModel × String × Kwargs

/-- `GeminiAPI.generate_response` (lines 24–39): issue exactly one
`generate_content` call; on success return `response.text`; on any
provider failure re-raise
`Exception("Error generating response: " + str(e))`.  The second
component records the provider calls issued, in order. -/
def GeminiAPI.generate_response (g : GeminiAPI) (ps : ProviderComplete)
    (prompt : String) (kwargs : Kwargs) :
    Except PyExc String × List ProviderCall :=
  (match ps g.model prompt kwargs with
   | .ok text => .ok text
   | .error e => .error (.exception ("Error generating response: " ++ e)),
   [(g.model, prompt, kwargs)])

/-- The generator object returned by `GeminiAPI.generate_stream`.
Calling a Python generator function executes none of its body: the
object only records the bound model and the call's arguments; the body
first runs when the caller advances the iterator. -/
structure GenIter where
  model : GenerativeModel
  prompt : String
  kwargs : Kwargs
deriving DecidableEq

/-- `GeminiAPI.generate_stream` (lines 41–58) as invoked: the function
body contains `yield`, so it is a generator function; the invocation
itself performs no provider call and cannot raise — it returns the
suspended generator. -/
def GeminiAPI.generate_stream (g : GeminiAPI) (prompt : String)
    (kwargs : Kwargs) : GenIter :=
  { model := g.model, prompt := prompt, kwargs := kwargs }

/-- The outcome of advancing the generator once: yield a fragment and
suspend with the remaining provider state, end the iteration normally,
or raise an exception to the caller. -/
inductive StepOut where
  | yield (fragment : String) (rest : List Chunk × Option String)
  | stop
  | raise (e : PyExc)
deriving DecidableEq

/-- Advancing the started generator body — the `for chunk in response`
loop of lines 54–56 under the `try` of lines 52–58: skip chunks whose
`text` is empty, yield the first non-empty one and suspend; once the
chunks are exhausted, stop normally, or, when the provider raised
mid-stream, re-raise it wrapped as
`Exception("Error generating streaming response: " + str(e))`. -/
def advance : List Chunk → Option String → StepOut
  | [], none => .stop
  | [], some e =>
      .raise (.exception ("Error generating streaming response: " ++ e))
  | c :: rest, merr =>
      if c.text.isEmpty then advance rest merr
      else .yield c.text (rest, merr)

/-- The first advance of a fresh generator: the body starts executing, so
the streaming request is issued now; a provider failure at request start
is wrapped and raised here, otherwise iteration proceeds over the
delivered chunks. -/
def firstAdvance (ps : ProviderStream) (it : GenIter) : StepOut :=
  match ps it.model it.prompt it.kwargs with
  | .error e => .raise (.exception ("Error generating streaming response: " ++ e))
  | .ok (chunks, merr) => advance chunks merr

/-- Driving the started generator body to exhaustion: the ordered list of
fragments it yields, and the exception (if any) raised when the caller
advances past the last yielded fragment. -/
def drain : List Chunk → Option String → List String × Option PyExc
  | [], none => ([], none)
  | [], some e =>
      ([], some (.exception ("Error generating streaming response: " ++ e)))
  | c :: rest, merr =>
      if c.text.isEmpty then drain rest merr
      else (c.text :: (drain rest merr).1, (drain rest merr).2)

/-- Fully consuming the iterator returned by `generate_stream` against a
provider behaviour: the fragments yielded to the caller, in order, and
the terminal exception, if any. -/
def streamTrace (ps : ProviderStream) (it : GenIter) :
    List String × Option PyExc :=
  match ps it.model it.prompt it.kwargs with
  | .error e =>
      ([], some (.exception ("Error generating streaming response: " ++ e)))
  | .ok (chunks, merr) => drain chunks merr

/-- Provider metadata for one model, as returned by `genai.list_models()`:
its name and its supported generation methods. -/
structure ProviderModel where
  name : String
  supported_generation_methods : List String
deriving DecidableEq

/-- The collection loop of lines 75–78: keep, in provider order, the name
of every model whose metadata lists `generateContent` among its
supported generation methods. -/
def collectModels : List ProviderModel → List String
  | [] => []
  | m :: rest =>
      if m.supported_generation_methods.contains "generateContent" then
        m.name :: collectModels rest
      else
        collectModels rest

/-- The body of the `try` block of `list_available_models` (lines 67–80):
read the key — the missing-key `ValueError` is raised here, inside the
`try` — then query the provider (`pm` is the outcome of
`genai.list_models()`), then run the collection loop. -/
def listModelsBody (env : Option String)
    (pm : Except String (List ProviderModel)) :
    Except PyExc (List String) :=
  if pyTruthy env then
    match pm with
    | .error e => .error (.exception e)
    | .ok models => .ok (collectModels models)
  else
    .error (.valueError "GEMINI_API_KEY not found in environment variables")

/-- `list_available_models` (lines 60–82): run the body; any exception it
raises — the missing-key `ValueError` included, since that raise sits
inside the `try` — is caught by the `except Exception` clause and
re-raised as `Exception("Error listing models: " + str(e))`. -/
def list_available_models (env : Option String)
    (pm : Except String (List ProviderModel)) :
    Except PyExc (List String) :=
  match listModelsBody env pm with
  | .ok r => .ok r
  | .error e => .error (.exception ("Error listing models: " ++ e.message))

/-- The default model name literal written at line 85 of the source, in
the signature of `get_gemini_response`. -/
def response_default_model : String := "gemini-1.5-flash"

/-- The default model name literal written at line 100 of the source, in
the signature of `get_gemini_stream`. -/
def stream_default_model : String := "gemini-1.5-flash"

/-- `get_gemini_response` (lines 85–98): construct a `GeminiAPI` bound to
`model_name` (a constructor failure propagates unwrapped) and delegate
to `generate_response`.  It holds no state of its own. -/
def get_gemini_response (env : Option String) (ps : ProviderComplete)
    (prompt : String) (model_name : String) (kwargs : Kwargs) :
    Except PyExc String × List ProviderCall :=
  match GeminiAPI.init env model_name with
  | .error e => (.error e, [])
  | .ok g => g.generate_response ps prompt kwargs

/-- `get_gemini_response(prompt)` with the model name omitted, which
Python fills with the line-85 default. -/
def get_gemini_response_defaulted (env : Option String)
    (ps : ProviderComplete) (prompt : String) (kwargs : Kwargs) :
    Except PyExc String × List ProviderCall :=
  get_gemini_response env ps prompt response_default_model kwargs

/-- `get_gemini_stream` (lines 100–113): construct a `GeminiAPI` bound to
`model_name` (a constructor failure propagates unwrapped) and delegate
to `generate_stream`, returning its generator.  It holds no state of its
own. -/
def get_gemini_stream (env : Option String) (prompt : String)
    (model_name : String) (kwargs : Kwargs) : Except PyExc GenIter :=
  match GeminiAPI.init env model_name with
  | .error e => .error e
  | .ok g => .ok (g.generate_stream prompt kwargs)

/-- `get_gemini_stream(prompt)` with the model name omitted, which Python
fills with the line-100 default. -/
def get_gemini_stream_defaulted (env : Option String) (prompt : String)
    (kwargs : Kwargs) : Except PyExc GenIter :=
  get_gemini_stream env prompt stream_default_model kwargs

/-- Spec-side formulation for C3: the provider's non-empty fragments, in
delivered order. -/
def specNonEmptyFragments (chunks : List Chunk) : List String :=
  (chunks.map Chunk.text).filter (fun t => !t.isEmpty)

/-- Spec-side formulation for C5: the names of the models advertising
content-generation support, in provider order. -/
def specSupportedNames (models : List ProviderModel) : List String :=
  (models.filter
    (fun m => m.supported_generation_methods.contains "generateContent")).map
    (fun m => m.name)

/- ## Helper lemmas -/

/-- Unfolding lemma: one step of the spec-side fragment filter. -/
theorem specNonEmptyFragments_cons (c : Chunk) (rest : List Chunk) :
    specNonEmptyFragments (c :: rest) =
      if c.text.isEmpty then specNonEmptyFragments rest
      else c.text :: specNonEmptyFragments rest := by
  by_cases h : c.text.isEmpty <;>
    simp [specNonEmptyFragments, List.filter_cons, h]

/-- Draining the started generator yields exactly the non-empty fragments
in order; the terminal exception is the wrapped mid-stream failure when
there is one. -/
theorem drain_eq (chunks : List Chunk) (merr : Option String) :
    drain chunks merr =
      (specNonEmptyFragments chunks,
       merr.map (fun e =>
         PyExc.exception ("Error generating streaming response: " ++ e))) := by
  induction chunks with
  | nil => cases merr <;> rfl
  | cons c rest ih =>
      rw [specNonEmptyFragments_cons]
      by_cases h : c.text.isEmpty <;> simp [drain, h, ih]

/-- The collection loop agrees with the spec-side filter-then-map
formulation. -/
theorem collectModels_eq (models : List ProviderModel) :
    collectModels models = specSupportedNames models := by
  induction models with
  | nil => rfl
  | cons m rest ih =>
      simp only [collectModels, specSupportedNames, List.filter_cons]
      by_cases h : m.supported_generation_methods.contains "generateContent"
      · rw [if_pos h, if_pos h, List.map_cons]
        exact congrArg (List.cons m.name) ih
      · rw [if_neg h, if_neg h]
        exact ih

/- ## Claims -/

/-- C1 (counterexample): with `GEMINI_API_KEY` unset, `list_available_models`
does NOT fail with the distinct configuration-error kind: the missing-key
`ValueError` is raised inside the `try` block, so the `except Exception`
clause catches it and re-raises the generic generation-error kind,
wrapping the message. -/
theorem C1_counterexample :
    list_available_models none (Except.ok []) =
      Except.error (PyExc.exception
        "Error listing models: GEMINI_API_KEY not found in environment variables") ∧
    PyExc.isConfigurationError (PyExc.exception
      "Error listing models: GEMINI_API_KEY not found in environment variables")
      = false :=
  ⟨rfl, rfl⟩

/-- C1 (amended): for every invocation of `list_available_models` in an
environment where `GEMINI_API_KEY` is unset, the call fails with a
generation-error-kind exception whose message wraps the missing-key
configuration message, and no provider query is made (the result is the
same for every provider behaviour `pm`). -/
theorem C1_list_models_no_key (pm : Except String (List ProviderModel)) :
    list_available_models none pm =
      Except.error (PyExc.exception
        "Error listing models: GEMINI_API_KEY not found in environment variables") :=
  rfl

/-- C2: `generate_response` makes exactly one provider call (no retry);
when the provider succeeds it returns the provider's full text; when the
provider raises any failure it raises a generation-error exception whose
message carries the original failure's description, and returns no
partial result. -/
theorem C2_generate_response_contract (g : GeminiAPI) (ps : ProviderComplete)
    (prompt : String) (kwargs : Kwargs) :
    (g.generate_response ps prompt kwargs).2 = [(g.model, prompt, kwargs)] ∧
    (∀ t, ps g.model prompt kwargs = Except.ok t →
      (g.generate_response ps prompt kwargs).1 = Except.ok t) ∧
    (∀ e, ps g.model prompt kwargs = Except.error e →
      (g.generate_response ps prompt kwargs).1 =
        Except.error (PyExc.exception ("Error generating response: " ++ e))) := by
  refine ⟨rfl, ?_, ?_⟩ <;> intro x h <;>
    simp [GeminiAPI.generate_response, h]

/-- C2 witness: a concrete succeeding provider and a concrete failing
provider, the contract evaluated at each. -/
theorem C2_witness :
    ((⟨⟨"gemini-1.5-flash"⟩⟩ : GeminiAPI).generate_response
        (fun _ _ _ => Except.ok "Hello") "Hi" []).1 = Except.ok "Hello" ∧
    ((⟨⟨"gemini-1.5-flash"⟩⟩ : GeminiAPI).generate_response
        (fun _ _ _ => Except.error "quota") "Hi" []).1 =
      Except.error (PyExc.exception ("Error generating response: " ++ "quota")) :=
  ⟨(C2_generate_response_contract ⟨⟨"gemini-1.5-flash"⟩⟩
      (fun _ _ _ => Except.ok "Hello") "Hi" []).2.1 "Hello" rfl,
   (C2_generate_response_contract ⟨⟨"gemini-1.5-flash"⟩⟩
      (fun _ _ _ => Except.error "quota") "Hi" []).2.2 "quota" rfl⟩

/-- C3: when the provider delivers a finite sequence of fragments and ends
cleanly, consuming the `generate_stream` iterator yields exactly the
non-empty fragments, in delivered order, skipping empty ones; hence the
concatenation of the yields equals the concatenation of the provider's
non-empty fragments. -/
theorem C3_stream_yields_nonempty_in_order (g : GeminiAPI) (prompt : String)
    (kwargs : Kwargs) (ps : ProviderStream) (chunks : List Chunk)
    (h : ps g.model prompt kwargs = Except.ok (chunks, none)) :
    streamTrace ps (g.generate_stream prompt kwargs) =
      (specNonEmptyFragments chunks, none) ∧
    String.join (streamTrace ps (g.generate_stream prompt kwargs)).1 =
      String.join (specNonEmptyFragments chunks) := by
  have ht : streamTrace ps (g.generate_stream prompt kwargs) =
      drain chunks none := by
    simp [streamTrace, GeminiAPI.generate_stream, h]
  rw [ht, drain_eq]
  exact ⟨rfl, rfl⟩

/-- C3 witness: a provider delivering fragments "Hel", "", "lo" and ending
cleanly; the iterator yields exactly ["Hel", "lo"]. -/
theorem C3_witness :
    streamTrace (fun _ _ _ => Except.ok ([⟨"Hel"⟩, ⟨""⟩, ⟨"lo"⟩], none))
        ((⟨⟨"gemini-1.5-flash"⟩⟩ : GeminiAPI).generate_stream "Hi" []) =
      (["Hel", "lo"], none) := by
  have h := C3_stream_yields_nonempty_in_order ⟨⟨"gemini-1.5-flash"⟩⟩ "Hi" []
    (fun _ _ _ => Except.ok ([⟨"Hel"⟩, ⟨""⟩, ⟨"lo"⟩], none))
    [⟨"Hel"⟩, ⟨""⟩, ⟨"lo"⟩] rfl
  rw [h.1]
  rfl

/-- C4: when the provider raises mid-stream after delivering some
fragments, every non-empty fragment delivered before the failure is
yielded to the caller (no rollback), the failure surfaces as a
generation-error exception, and it is raised exactly when the caller next
advances the iterator past the delivered chunks. -/
theorem C4_midstream_failure (g : GeminiAPI) (prompt : String)
    (kwargs : Kwargs) (ps : ProviderStream) (chunks : List Chunk) (e : String)
    (h : ps g.model prompt kwargs = Except.ok (chunks, some e)) :
    (streamTrace ps (g.generate_stream prompt kwargs)).1 =
      specNonEmptyFragments chunks ∧
    (streamTrace ps (g.generate_stream prompt kwargs)).2 =
      some (PyExc.exception ("Error generating streaming response: " ++ e)) ∧
    advance [] (some e) =
      StepOut.raise (PyExc.exception ("Error generating streaming response: " ++ e)) := by
  have ht : streamTrace ps (g.generate_stream prompt kwargs) =
      drain chunks (some e) := by
    simp [streamTrace, GeminiAPI.generate_stream, h]
  rw [ht, drain_eq]
  exact ⟨rfl, rfl, rfl⟩

/-- C4 witness: a provider delivering "par", "tial" and then raising
"network"; both fragments remain observed and the wrapped failure is the
terminal event. -/
theorem C4_witness :
    (streamTrace (fun _ _ _ => Except.ok ([⟨"par"⟩, ⟨"tial"⟩], some "network"))
        ((⟨⟨"gemini-1.5-flash"⟩⟩ : GeminiAPI).generate_stream "Hi" [])).1 =
      ["par", "tial"] ∧
    (streamTrace (fun _ _ _ => Except.ok ([⟨"par"⟩, ⟨"tial"⟩], some "network"))
        ((⟨⟨"gemini-1.5-flash"⟩⟩ : GeminiAPI).generate_stream "Hi" [])).2 =
      some (PyExc.exception ("Error generating streaming response: " ++ "network")) := by
  have h := C4_midstream_failure ⟨⟨"gemini-1.5-flash"⟩⟩ "Hi" []
    (fun _ _ _ => Except.ok ([⟨"par"⟩, ⟨"tial"⟩], some "network"))
    [⟨"par"⟩, ⟨"tial"⟩] "network" rfl
  exact ⟨by rw [h.1]; rfl, h.2.1⟩

/-- C5: with the key present and the provider returning a sequence of
models, `list_available_models` returns exactly the names of the models
whose metadata advertises content-generation support, preserving
provider-returned order. -/
theorem C5_list_models_filters (k : String) (models : List ProviderModel)
    (h : k.isEmpty = false) :
    list_available_models (some k) (Except.ok models) =
      Except.ok (specSupportedNames models) := by
  simp [list_available_models, listModelsBody, pyTruthy, h, collectModels_eq]

/-- C5 witness: provider models A (supports generateContent), B (does
not), C (supports): the result is [A, C]. -/
theorem C5_witness :
    list_available_models (some "key")
        (Except.ok [⟨"A", ["generateContent"]⟩, ⟨"B", ["embedText"]⟩,
          ⟨"C", ["generateContent", "embedText"]⟩]) =
      Except.ok ["A", "C"] := by
  have h := C5_list_models_filters "key"
    [⟨"A", ["generateContent"]⟩, ⟨"B", ["embedText"]⟩,
      ⟨"C", ["generateContent", "embedText"]⟩] rfl
  rw [h]
  rfl

/-- C6: constructing the wrapper in an environment where `GEMINI_API_KEY`
is unset fails with the configuration-error kind (`ValueError`, raised
before the provider is configured), and the error result carries no
client handle, so no provider client is created. -/
theorem C6_init_unset_env (model_name : String) :
    GeminiAPI.init none model_name =
      Except.error (PyExc.valueError
        "GEMINI_API_KEY not found in environment variables") ∧
    PyExc.isConfigurationError (PyExc.valueError
      "GEMINI_API_KEY not found in environment variables") = true :=
  ⟨rfl, rfl⟩

/-- C7: constructing the wrapper in an environment where `GEMINI_API_KEY`
is a non-empty string succeeds, binding the client handle to the given
model name, and to the line-10 default name when none is given. -/
theorem C7_init_nonempty_key (k model_name : String) (h : k.isEmpty = false) :
    GeminiAPI.init (some k) model_name = Except.ok ⟨⟨model_name⟩⟩ ∧
    GeminiAPI.init_defaulted (some k) = Except.ok ⟨⟨"gemini-1.5-flash"⟩⟩ := by
  constructor <;>
    simp [GeminiAPI.init, GeminiAPI.init_defaulted, init_default_model,
      pyTruthy, h]

/-- C7 witness: construction with key "key" and model "m" binds "m";
defaulted construction binds "gemini-1.5-flash". -/
theorem C7_witness :
    GeminiAPI.init (some "key") "m" = Except.ok ⟨⟨"m"⟩⟩ ∧
    GeminiAPI.init_defaulted (some "key") = Except.ok ⟨⟨"gemini-1.5-flash"⟩⟩ :=
  C7_init_nonempty_key "key" "m" rfl

/-- C8: the convenience functions are pure pass-throughs: for every
environment, provider behaviour, prompt, model name and option map,
`get_gemini_response` returns exactly the result (value or raised error)
of constructing a wrapper and calling `generate_response`, and
`get_gemini_stream` returns exactly the generator of constructing a
wrapper and calling `generate_stream`; being plain functions of their
arguments, they hold no state of their own. -/
theorem C8_convenience_passthrough (env : Option String)
    (ps : ProviderComplete) (prompt model_name : String) (kwargs : Kwargs) :
    get_gemini_response env ps prompt model_name kwargs =
      (match GeminiAPI.init env model_name with
       | .error e => (Except.error e, [])
       | .ok g => g.generate_response ps prompt kwargs) ∧
    get_gemini_stream env prompt model_name kwargs =
      (match GeminiAPI.init env model_name with
       | .error e => Except.error e
       | .ok g => Except.ok (g.generate_stream prompt kwargs)) :=
  ⟨rfl, rfl⟩

/-- C9: invoking `generate_stream` itself never raises and performs no
provider call — it returns the suspended generator, a pure record of the
bound model and the arguments, independent of any provider behaviour —
and a failure at request start is raised (as the generation-error kind)
only when the returned iterator is first advanced. -/
theorem C9_stream_lazy (g : GeminiAPI) (prompt : String) (kwargs : Kwargs) :
    g.generate_stream prompt kwargs =
      { model := g.model, prompt := prompt, kwargs := kwargs } ∧
    (∀ (ps : ProviderStream) (e : String),
      ps g.model prompt kwargs = Except.error e →
      firstAdvance ps (g.generate_stream prompt kwargs) =
        StepOut.raise (PyExc.exception
          ("Error generating streaming response: " ++ e))) := by
  refine ⟨rfl, ?_⟩
  intro ps e h
  simp [firstAdvance, GeminiAPI.generate_stream, h]

/-- C9 witness: a provider that raises "boom" at request start; the first
advance of the iterator raises the wrapped generation error. -/
theorem C9_witness :
    firstAdvance (fun _ _ _ => Except.error "boom")
        ((⟨⟨"gemini-1.5-flash"⟩⟩ : GeminiAPI).generate_stream "Hi" []) =
      StepOut.raise (PyExc.exception
        ("Error generating streaming response: " ++ "boom")) :=
  (C9_stream_lazy ⟨⟨"gemini-1.5-flash"⟩⟩ "Hi" []).2
    (fun _ _ _ => Except.error "boom") "boom" rfl

/-- C10: the fixed default model name is the same string
"gemini-1.5-flash" at all three defaulting sites (the constructor,
`get_gemini_response`, `get_gemini_stream`), so omitting the model name
yields identical binding through every entry point. -/
theorem C10_default_model_consistent :
    init_default_model = "gemini-1.5-flash" ∧
    response_default_model = init_default_model ∧
    stream_default_model = init_default_model ∧
    (∀ env, GeminiAPI.init_defaulted env =
      GeminiAPI.init env "gemini-1.5-flash") ∧
    (∀ env ps prompt kwargs,
      get_gemini_response_defaulted env ps prompt kwargs =
        get_gemini_response env ps prompt "gemini-1.5-flash" kwargs) ∧
    (∀ env prompt kwargs,
      get_gemini_stream_defaulted env prompt kwargs =
        get_gemini_stream env prompt "gemini-1.5-flash" kwargs) :=
  ⟨rfl, rfl, rfl, fun _ => rfl, fun _ _ _ _ => rfl, fun _ _ _ => rfl⟩
